import Mathlib

/-!
Verification of `src/Motor Driver Code/PMSMx/BasicMotorControl.c` (PMSM
repository): trapezoidal six-step commutation for a BLDC motor with an
outer speed-control loop.

Shallow embedding conventions:
* Hardware registers (gate-drive duty registers `GH_*_DC`/`GL_*_DC`, the
  LED pins, the timer registers `TMR2`/`TMR3HLD`, the Hall input pins
  `HALL1..3`) are fields of an explicit machine state.
* Machine integers are `Nat` with an explicit `% 2^w` where overflow can
  occur (`timer` is `uint32_t`).  `float` fields of the `PIDs` struct are
  modelled as exact rationals `ℚ`; all values appearing in the claims are
  small integers or exact thousandths, where this model is faithful to the
  control flow of the source (the clamping comparisons and dead-code
  structure do not depend on rounding).
* C undefined behaviour (division by zero in `SpeedControlStep`) makes the
  step return `none`.
-/

/-- Motor phase identifiers A, B, C. -/
inductive Phase where
  | A : Phase
  | B : Phase
  | C : Phase
deriving DecidableEq, Repr

/-- Rotation direction.  Modelled from the spec: the constants `CW` and
`CCW` come from `PMSMBoard.h`, which is not part of the repository source;
the spec describes direction as the two-valued set {CW, CCW}. -/
inductive Dir where
  | CW : Dir
  | CCW : Dir
deriving DecidableEq, Repr

/-- The six gate-drive duty registers `GH_A_DC .. GL_C_DC` (uint16 duty
values written by `TrapUpdate` / `ForceDuty`). -/
structure Gates where
  GH_A : ℕ
  GL_A : ℕ
  GH_B : ℕ
  GL_B : ℕ
  GH_C : ℕ
  GL_C : ℕ
deriving DecidableEq, Repr

/-- High-side duty register of a phase. -/
def Gates.hi (g : Gates) : Phase → ℕ
  | Phase.A => g.GH_A
  | Phase.B => g.GH_B
  | Phase.C => g.GH_C

/-- Low-side duty register of a phase. -/
def Gates.lo (g : Gates) : Phase → ℕ
  | Phase.A => g.GL_A
  | Phase.B => g.GL_B
  | Phase.C => g.GL_C

/-- The three status LEDs `LED1..LED3`. -/
structure Leds where
  LED1 : Bool
  LED2 : Bool
  LED3 : Bool
deriving DecidableEq, Repr

/-- The `static struct { ... } PIDs` of the source.  Its eight `float`
fields are modelled as exact rationals. -/
structure PIDState where
  Kp : ℚ
  Ki : ℚ
  Kd : ℚ
  err : ℚ
  der : ℚ
  output : ℚ
  integral : ℚ
  currentError : ℚ
deriving DecidableEq, Repr

/-- Machine state relevant to `BasicMotorControl.c`: the file-level
singletons (`motorInfo`, `PIDs`, `timer`, `timerCurr`, `commandedTorque`,
`changeState`) together with the hardware registers the file reads and
writes.  `motorInfo.currentSpeed` is a signed integer per the spec
(`BasicMotorControl.h` is not in the repository source); its computed
values are non-negative, so it is carried as `ℕ`.  `uartLog` records the
diagnostic lines emitted through `putsUART2`, newest first, as the pair
(speed estimate, PID output) formatted by the `sprintf` call. -/
structure MState where
  gates : Gates
  leds : Leds
  hall1 : Bool
  hall2 : Bool
  hall3 : Bool
  hallCount : ℕ
  currentSpeed : ℕ
  timer : ℕ
  timerCurr : ℕ
  tmr2 : ℕ
  tmr3hld : ℕ
  changeState : ℕ
  commandedTorque : ℕ
  pid : PIDState
  uartLog : List (ℕ × ℚ)
  cnif : Bool
deriving DecidableEq, Repr

/-- A Hall pattern is valid when the three sensor bits are neither all
clear nor all set (the six patterns the commutation table branches on). -/
def validHall (s : MState) : Prop :=
  ¬ (s.hall1 = s.hall2 ∧ s.hall2 = s.hall3)

instance (s : MState) : Decidable (validHall s) := by
  unfold validHall
  infer_instance

/-- The 32-bit timer snapshot read by `TrapUpdate`:
`timerCurr = TMR2; timerCurr |= ((uint32_t) TMR3HLD << 16) & 0xFFFF0000`. -/
def timerSnapshot (s : MState) : ℕ :=
  s.tmr2 ||| ((s.tmr3hld <<< 16) &&& 0xFFFF0000)

/-- Embedding of `TrapUpdate(uint16_t torque, uint16_t direction)`: increments
`motorInfo.hallCount`, reads the 32-bit timer snapshot out of
`TMR2`/`TMR3HLD`, accumulates it into `timer` (uint32 wrap-around),
zeroes the hardware timer registers, sets `changeState = 1`, and drives
the commutation table for the current Hall pattern and direction.  The
two invalid Hall patterns fall through every branch and leave the gates
and LEDs untouched. -/
def trapUpdate (torque : ℕ) (direction : Dir) (s : MState) : MState :=
  let timerCurr := timerSnapshot s
  let s1 : MState :=
    { s with
      hallCount := s.hallCount + 1
      timerCurr := timerCurr
      timer := (s.timer + timerCurr) % 2 ^ 32
      tmr3hld := 0
      tmr2 := 0
      changeState := 1 }
  match direction with
  | Dir.CW =>
    if s.hall1 && s.hall2 && !s.hall3 then
      { s1 with gates := ⟨0, 0, torque, 0, 0, torque⟩,
                leds := ⟨true, true, false⟩ }
    else if !s.hall1 && s.hall2 && !s.hall3 then
      { s1 with gates := ⟨0, torque, torque, 0, 0, 0⟩,
                leds := ⟨false, true, false⟩ }
    else if !s.hall1 && s.hall2 && s.hall3 then
      { s1 with gates := ⟨0, torque, 0, 0, torque, 0⟩,
                leds := ⟨false, true, true⟩ }
    else if !s.hall1 && !s.hall2 && s.hall3 then
      { s1 with gates := ⟨0, 0, 0, torque, torque, 0⟩,
                leds := ⟨false, false, true⟩ }
    else if s.hall1 && !s.hall2 && s.hall3 then
      { s1 with gates := ⟨torque, 0, 0, torque, 0, 0⟩,
                leds := ⟨true, false, true⟩ }
    else if s.hall1 && !s.hall2 && !s.hall3 then
      { s1 with gates := ⟨torque, 0, 0, 0, 0, torque⟩,
                leds := ⟨true, false, false⟩ }
    else s1
  | Dir.CCW =>
    if s.hall1 && s.hall2 && !s.hall3 then
      { s1 with gates := ⟨0, 0, 0, torque, torque, 0⟩,
                leds := ⟨true, true, false⟩ }
    else if !s.hall1 && s.hall2 && !s.hall3 then
      { s1 with gates := ⟨torque, 0, 0, torque, 0, 0⟩,
                leds := ⟨false, true, false⟩ }
    else if !s.hall1 && s.hall2 && s.hall3 then
      { s1 with gates := ⟨torque, 0, 0, 0, 0, torque⟩,
                leds := ⟨false, true, true⟩ }
    else if !s.hall1 && !s.hall2 && s.hall3 then
      { s1 with gates := ⟨0, 0, torque, 0, 0, torque⟩,
                leds := ⟨false, false, true⟩ }
    else if s.hall1 && !s.hall2 && s.hall3 then
      { s1 with gates := ⟨0, torque, torque, 0, 0, 0⟩,
                leds := ⟨true, false, true⟩ }
    else if s.hall1 && !s.hall2 && !s.hall3 then
      { s1 with gates := ⟨0, torque, 0, 0, torque, 0⟩,
                leds := ⟨true, false, false⟩ }
    else s1

/-- Embedding of `void __attribute__((__interrupt__)) _CNInterrupt(void)`: calls
`TrapUpdate(commandedTorque, CW)` and clears the change-notification
interrupt flag `IFS1bits.CNIF`. -/
def cnInterrupt (s : MState) : MState :=
  { trapUpdate s.commandedTorque Dir.CW s with cnif := false }

/-- Embedding of `void ForceDuty(...)`: writes the six gate-drive duty registers
directly, bypassing the commutation logic. -/
def forceDuty (ghA glA ghB glB ghC glC : ℕ) (s : MState) : MState :=
  { s with gates := ⟨ghA, glA, ghB, glB, ghC, glC⟩ }

/-- Conversion of the non-negative `float` value `PIDs.output / 30` to
`uint16_t commandedTorque`: C truncates toward zero. -/
def ratToUInt16 (q : ℚ) : ℕ := (⌊q⌋).toNat

/-- Embedding of `void SpeedControlStep(uint16_t speed, uint8_t direction, uint8_t
update)`.  The `direction` parameter is accepted and ignored, exactly as
in the source.  When `update` and `changeState` are both nonzero the
control computation runs:

* `motorInfo.currentSpeed = 52500000 / (timer / motorInfo.hallCount)`
  with unsigned integer division — division by zero (when `hallCount`
  is 0, or when `timer / hallCount` is 0) is C undefined behaviour, and
  the model returns `none` there;
* `PIDs.currentError = speed - motorInfo.currentSpeed` (signed);
* `PIDs.der = PIDs.err - PIDs.currentError`;
* `PIDs.integral += PIDs.err`, then clamped from above at 2000000 (the
  source has no lower clamp);
* `PIDs.output = (PIDs.Kp * PIDs.err) + (PIDs.Ki * PIDs.integral * .001);`
  — the statement ends here; the following `+ (PIDs.Kd * PIDs.der / .001);`
  of the source is an expression statement whose value is discarded, so
  the derivative term never reaches `PIDs.output`;
* `PIDs.output` clamped to [0, 30000]; `PIDs.err = PIDs.currentError`;
  `commandedTorque = PIDs.output / 30`; one diagnostic line emitted;
  `hallCount`, `changeState`, `timer`, `timerCurr` reset to 0.

Otherwise the call does nothing. -/
def speedControlStep (speed : ℕ) (_direction : Dir) (update : ℕ)
    (s : MState) : Option MState :=
  if update ≠ 0 then
    if s.changeState ≠ 0 then
      if s.hallCount = 0 then none
      else if s.timer / s.hallCount = 0 then none
      else
        let currentSpeed := 52500000 / (s.timer / s.hallCount)
        let currentError : ℚ := ((speed : ℤ) - (currentSpeed : ℤ) : ℤ)
        let der := s.pid.err - currentError
        let integral0 := s.pid.integral + s.pid.err
        let integral : ℚ := if integral0 > 2000000 then 2000000 else integral0
        let output0 := s.pid.Kp * s.pid.err + s.pid.Ki * integral * (1 / 1000)
        let output : ℚ :=
          if output0 > 30000 then 30000
          else if output0 < 0 then 0
          else output0
        let commandedTorque := ratToUInt16 (output / 30)
        some
          { s with
            currentSpeed := currentSpeed
            pid :=
              { s.pid with
                currentError := currentError
                der := der
                integral := integral
                output := output
                err := currentError }
            commandedTorque := commandedTorque
            uartLog := (currentSpeed, output) :: s.uartLog
            hallCount := 0
            changeState := 0
            timer := 0
            timerCurr := 0 }
    else some s
  else some s

/-- Gate pattern property: exactly the pair (high side of `p`, low side of
`q`) carries the duty value `t`, and the other four duty registers are 0. -/
def energizedPair (g : Gates) (t : ℕ) (p q : Phase) : Prop :=
  g.hi p = t ∧ g.lo q = t ∧
  (∀ r, r ≠ p → g.hi r = 0) ∧ (∀ r, r ≠ q → g.lo r = 0)

/-- No phase has its high-side and low-side duty simultaneously nonzero. -/
def noShootThrough (g : Gates) : Prop :=
  ∀ r : Phase, g.hi r = 0 ∨ g.lo r = 0

/-- A concrete machine state with the valid Hall pattern (1,1,0), used to
instantiate theorems with hypotheses on concrete inputs. -/
def benchState : MState :=
  { gates := ⟨9, 9, 9, 9, 9, 9⟩
    leds := ⟨true, false, true⟩
    hall1 := true
    hall2 := true
    hall3 := false
    hallCount := 0
    currentSpeed := 0
    timer := 0
    timerCurr := 0
    tmr2 := 500
    tmr3hld := 2
    changeState := 0
    commandedTorque := 7
    pid := ⟨0, 0, 0, 0, 0, 0, 0, 0⟩
    uartLog := []
    cnif := true }

/-- A state ready for a control computation whose previous error is
negative (`PIDs.err = -5`) with `PIDs.integral = 0`. -/
def negErrState : MState :=
  { benchState with
    hallCount := 1
    timer := 52500
    changeState := 1
    pid := ⟨0, 0, 0, -5, 0, 0, 0, 0⟩ }

/-- A state ready for a control computation with `Kp = Ki = Kd = 1`,
`err = 0`, `der = 3`, `integral = 2000`. -/
def kiState : MState :=
  { benchState with
    hallCount := 1
    timer := 52500
    changeState := 1
    pid := ⟨1, 1, 1, 0, 3, 0, 2000, 0⟩ }

/-- A state with a pending commutation flag but `hallCount = 0` (stalled
motor: no Hall transition recorded since the last consumed update). -/
def stallState : MState :=
  { benchState with
    changeState := 1
    timer := 52500 }

/-- A state whose three Hall bits are all set (an invalid pattern). -/
def allSetHallState : MState :=
  { benchState with hall3 := true }

lemma pair_ok (t : ℕ) (p q : Phase) (g : Gates) (hpq : p ≠ q)
    (h1 : g.hi p = t) (h2 : g.lo q = t)
    (h3 : ∀ r, r ≠ p → g.hi r = 0) (h4 : ∀ r, r ≠ q → g.lo r = 0) :
    p ≠ q ∧ energizedPair g t p q ∧ noShootThrough g := by
  refine ⟨hpq, ⟨h1, h2, h3, h4⟩, ?_⟩
  intro r
  by_cases hrp : r = p
  · subst hrp
    exact Or.inr (h4 r hpq)
  · exact Or.inl (h3 r hrp)

/-- C1: for every valid Hall pattern and either direction, `TrapUpdate`
energizes exactly one phase pair: one high-side and one low-side duty
register, of two different phases, are set to the torque value, the other
four duty registers are set to 0, and no phase has both its high-side and
low-side duty nonzero (no shoot-through). -/
theorem trapUpdate_one_pair (torque : ℕ) (direction : Dir) (s : MState)
    (hv : validHall s) :
    ∃ p q : Phase, p ≠ q ∧
      energizedPair (trapUpdate torque direction s).gates torque p q ∧
      noShootThrough (trapUpdate torque direction s).gates := by
  cases direction <;>
    cases hh1 : s.hall1 <;> cases hh2 : s.hall2 <;> cases hh3 : s.hall3 <;>
    simp [validHall, hh1, hh2, hh3] at hv <;>
    simp only [trapUpdate, hh1, hh2, hh3, Bool.true_and, Bool.false_and,
      Bool.and_true, Bool.and_false, Bool.not_true, Bool.not_false,
      if_true, if_false, Bool.false_eq_true, Bool.true_eq_false] <;>
    first
    | exact ⟨Phase.A, Phase.B, pair_ok _ _ _ _ (by decide) rfl rfl
        (by intro r hr; cases r <;> simp_all [Gates.hi])
        (by intro r hr; cases r <;> simp_all [Gates.lo])⟩
    | exact ⟨Phase.A, Phase.C, pair_ok _ _ _ _ (by decide) rfl rfl
        (by intro r hr; cases r <;> simp_all [Gates.hi])
        (by intro r hr; cases r <;> simp_all [Gates.lo])⟩
    | exact ⟨Phase.B, Phase.A, pair_ok _ _ _ _ (by decide) rfl rfl
        (by intro r hr; cases r <;> simp_all [Gates.hi])
        (by intro r hr; cases r <;> simp_all [Gates.lo])⟩
    | exact ⟨Phase.B, Phase.C, pair_ok _ _ _ _ (by decide) rfl rfl
        (by intro r hr; cases r <;> simp_all [Gates.hi])
        (by intro r hr; cases r <;> simp_all [Gates.lo])⟩
    | exact ⟨Phase.C, Phase.A, pair_ok _ _ _ _ (by decide) rfl rfl
        (by intro r hr; cases r <;> simp_all [Gates.hi])
        (by intro r hr; cases r <;> simp_all [Gates.lo])⟩
    | exact ⟨Phase.C, Phase.B, pair_ok _ _ _ _ (by decide) rfl rfl
        (by intro r hr; cases r <;> simp_all [Gates.hi])
        (by intro r hr; cases r <;> simp_all [Gates.lo])⟩

/-- Concrete instantiation of the C1 theorem at a valid Hall pattern. -/
theorem trapUpdate_one_pair_witness :
    validHall benchState ∧
      ∃ p q : Phase, p ≠ q ∧
        energizedPair (trapUpdate 100 Dir.CW benchState).gates 100 p q ∧
        noShootThrough (trapUpdate 100 Dir.CW benchState).gates :=
  ⟨by decide, trapUpdate_one_pair 100 Dir.CW benchState (by decide)⟩

/-- C5: for every valid Hall pattern the CCW commutation table is the
mirror image of the CW table: per phase, the CCW high-side duty equals the
CW low-side duty and vice versa, with the torque magnitude preserved. -/
theorem trapUpdate_ccw_mirror (torque : ℕ) (s : MState) (hv : validHall s) :
    ∀ p : Phase,
      (trapUpdate torque Dir.CCW s).gates.hi p
        = (trapUpdate torque Dir.CW s).gates.lo p ∧
      (trapUpdate torque Dir.CCW s).gates.lo p
        = (trapUpdate torque Dir.CW s).gates.hi p := by
  intro p
  cases hh1 : s.hall1 <;> cases hh2 : s.hall2 <;> cases hh3 : s.hall3 <;>
    simp [validHall, hh1, hh2, hh3] at hv <;>
    cases p <;>
    simp [trapUpdate, hh1, hh2, hh3, Gates.hi, Gates.lo]

/-- Concrete instantiation of the C5 theorem at a valid Hall pattern. -/
theorem trapUpdate_ccw_mirror_witness :
    validHall benchState ∧
      ∀ p : Phase,
        (trapUpdate 100 Dir.CCW benchState).gates.hi p
          = (trapUpdate 100 Dir.CW benchState).gates.lo p ∧
        (trapUpdate 100 Dir.CCW benchState).gates.lo p
          = (trapUpdate 100 Dir.CW benchState).gates.hi p :=
  ⟨by decide, trapUpdate_ccw_mirror 100 benchState (by decide)⟩

/-- C9: on the two invalid Hall patterns (all three sensor bits equal),
`TrapUpdate` leaves the six duty registers and the three LEDs unchanged,
yet still increments `hallCount`, stores the timer snapshot, adds it into
the elapsed-tick accumulator, zeroes the hardware timer registers, and
sets `changeState` to 1. -/
theorem trapUpdate_invalid_pattern (torque : ℕ) (direction : Dir) (s : MState)
    (h12 : s.hall1 = s.hall2) (h23 : s.hall2 = s.hall3) :
    (trapUpdate torque direction s).gates = s.gates ∧
    (trapUpdate torque direction s).leds = s.leds ∧
    (trapUpdate torque direction s).hallCount = s.hallCount + 1 ∧
    (trapUpdate torque direction s).timerCurr = timerSnapshot s ∧
    (trapUpdate torque direction s).timer = (s.timer + timerSnapshot s) % 2 ^ 32 ∧
    (trapUpdate torque direction s).tmr2 = 0 ∧
    (trapUpdate torque direction s).tmr3hld = 0 ∧
    (trapUpdate torque direction s).changeState = 1 := by
  have hh2 : s.hall2 = s.hall1 := h12.symm
  have hh3 : s.hall3 = s.hall1 := h23.symm.trans h12.symm
  cases direction <;> cases hh1 : s.hall1 <;> rw [hh1] at hh2 hh3 <;>
    simp [trapUpdate, hh1, hh2, hh3]

/-- Concrete instantiation of the C9 theorem on the all-set pattern. -/
theorem trapUpdate_invalid_pattern_witness :
    (allSetHallState.hall1 = allSetHallState.hall2 ∧
      allSetHallState.hall2 = allSetHallState.hall3) ∧
    (trapUpdate 100 Dir.CW allSetHallState).gates = allSetHallState.gates ∧
    (trapUpdate 100 Dir.CW allSetHallState).leds = allSetHallState.leds ∧
    (trapUpdate 100 Dir.CW allSetHallState).hallCount
      = allSetHallState.hallCount + 1 ∧
    (trapUpdate 100 Dir.CW allSetHallState).timerCurr
      = timerSnapshot allSetHallState ∧
    (trapUpdate 100 Dir.CW allSetHallState).timer
      = (allSetHallState.timer + timerSnapshot allSetHallState) % 2 ^ 32 ∧
    (trapUpdate 100 Dir.CW allSetHallState).tmr2 = 0 ∧
    (trapUpdate 100 Dir.CW allSetHallState).tmr3hld = 0 ∧
    (trapUpdate 100 Dir.CW allSetHallState).changeState = 1 :=
  ⟨⟨by decide, by decide⟩,
    trapUpdate_invalid_pattern 100 Dir.CW allSetHallState (by decide) (by decide)⟩

/-- C10: the change-notification interrupt handler always commutates with
direction CW and the stored `commandedTorque`: its gate output equals the
output of `TrapUpdate(commandedTorque, CW)`, and (for a valid pattern and
nonzero torque) differs from the CCW table output, so the CCW table is
unreachable from the interrupt entry point. -/
theorem cnInterrupt_commutates_cw (s : MState) (hv : validHall s)
    (ht : s.commandedTorque ≠ 0) :
    (cnInterrupt s).gates = (trapUpdate s.commandedTorque Dir.CW s).gates ∧
    (cnInterrupt s).gates ≠ (trapUpdate s.commandedTorque Dir.CCW s).gates := by
  refine ⟨rfl, ?_⟩
  cases hh1 : s.hall1 <;> cases hh2 : s.hall2 <;> cases hh3 : s.hall3 <;>
    simp [validHall, hh1, hh2, hh3] at hv <;>
    simp [cnInterrupt, trapUpdate, hh1, hh2, hh3, Gates.mk.injEq, ht]

/-- Concrete instantiation of the C10 theorem. -/
theorem cnInterrupt_commutates_cw_witness :
    (validHall benchState ∧ benchState.commandedTorque ≠ 0) ∧
    (cnInterrupt benchState).gates
      = (trapUpdate benchState.commandedTorque Dir.CW benchState).gates ∧
    (cnInterrupt benchState).gates
      ≠ (trapUpdate benchState.commandedTorque Dir.CCW benchState).gates :=
  ⟨⟨by decide, by decide⟩,
    cnInterrupt_commutates_cw benchState (by decide) (by decide)⟩

/-- C8: when `update` is zero or `changeState` is zero, `SpeedControlStep`
is a no-op: the whole machine state (motor info, PID scratch state,
commanded torque, timers, flag, diagnostic log) is unchanged. -/
theorem speedControlStep_noop (speed : ℕ) (direction : Dir) (update : ℕ)
    (s : MState) (h : update = 0 ∨ s.changeState = 0) :
    speedControlStep speed direction update s = some s := by
  rcases h with h | h <;> simp [speedControlStep, h]

/-- Concrete instantiation of the C8 theorem with `update = 0`. -/
theorem speedControlStep_noop_witness :
    speedControlStep 1000 Dir.CW 0 benchState = some benchState :=
  speedControlStep_noop 1000 Dir.CW 0 benchState (Or.inl rfl)

lemma outClamp_nonneg (x : ℚ) :
    0 ≤ (if x > 30000 then (30000 : ℚ) else if x < 0 then 0 else x) := by
  split_ifs with h1 h2
  · norm_num
  · norm_num
  · exact not_lt.mp h2

lemma outClamp_le (x : ℚ) :
    (if x > 30000 then (30000 : ℚ) else if x < 0 then 0 else x) ≤ 30000 := by
  split_ifs with h1 h2
  · norm_num
  · norm_num
  · exact not_lt.mp h1

lemma ratToUInt16_le_of_le (q : ℚ) (n : ℕ) (h : q ≤ (n : ℚ)) :
    ratToUInt16 q ≤ n := by
  unfold ratToUInt16
  rw [Int.toNat_le]
  calc ⌊q⌋ ≤ ⌊(n : ℚ)⌋ := Int.floor_le_floor h
    _ = n := Int.floor_natCast n

lemma intClamp_le (x : ℚ) :
    (if x > 2000000 then (2000000 : ℚ) else x) ≤ 2000000 := by
  split_ifs with h1
  · norm_num
  · exact not_lt.mp h1

/-- C6: every completed control computation leaves the clamped PID output
in [0, 30000] and the commanded torque (output / 30, truncated) in
[0, 1000]. -/
theorem speedControlStep_output_clamped (speed : ℕ) (direction : Dir)
    (update : ℕ) (s : MState) (hu : update ≠ 0) (hc : s.changeState ≠ 0)
    (hhc : s.hallCount ≠ 0) (hdv : s.timer / s.hallCount ≠ 0) :
    ∃ s', speedControlStep speed direction update s = some s' ∧
      0 ≤ s'.pid.output ∧ s'.pid.output ≤ 30000 ∧ s'.commandedTorque ≤ 1000 := by
  unfold speedControlStep
  rw [if_pos hu, if_pos hc, if_neg hhc, if_neg hdv]
  refine ⟨_, rfl, ?_, ?_, ?_⟩
  · exact outClamp_nonneg _
  · exact outClamp_le _
  · refine ratToUInt16_le_of_le _ 1000 ?_
    have h1 := outClamp_le (s.pid.Kp * s.pid.err +
      s.pid.Ki * (if s.pid.integral + s.pid.err > 2000000 then (2000000 : ℚ)
        else s.pid.integral + s.pid.err) * (1 / 1000))
    push_cast
    linarith

/-- Concrete instantiation of the C6 theorem. -/
theorem speedControlStep_output_clamped_witness :
    ((1 : ℕ) ≠ 0 ∧ kiState.changeState ≠ 0 ∧ kiState.hallCount ≠ 0 ∧
      kiState.timer / kiState.hallCount ≠ 0) ∧
    ∃ s', speedControlStep 1000 Dir.CW 1 kiState = some s' ∧
      0 ≤ s'.pid.output ∧ s'.pid.output ≤ 30000 ∧ s'.commandedTorque ≤ 1000 :=
  ⟨⟨by decide, by decide, by decide, by decide⟩,
    speedControlStep_output_clamped 1000 Dir.CW 1 kiState
      (by decide) (by decide) (by decide) (by decide)⟩

/-- C2 (amended): the integral accumulator is clamped from above at
2000000 by every completed control computation; the source has no lower
clamp, so no lower bound is asserted. -/
theorem speedControlStep_integral_upper_bound (speed : ℕ) (direction : Dir)
    (update : ℕ) (s : MState) (hu : update ≠ 0) (hc : s.changeState ≠ 0)
    (hhc : s.hallCount ≠ 0) (hdv : s.timer / s.hallCount ≠ 0) :
    ∃ s', speedControlStep speed direction update s = some s' ∧
      s'.pid.integral ≤ 2000000 := by
  unfold speedControlStep
  rw [if_pos hu, if_pos hc, if_neg hhc, if_neg hdv]
  exact ⟨_, rfl, intClamp_le _⟩

/-- Concrete instantiation of the C2 (amended) theorem. -/
theorem speedControlStep_integral_upper_bound_witness :
    ((1 : ℕ) ≠ 0 ∧ negErrState.changeState ≠ 0 ∧ negErrState.hallCount ≠ 0 ∧
      negErrState.timer / negErrState.hallCount ≠ 0) ∧
    ∃ s', speedControlStep 1000 Dir.CW 1 negErrState = some s' ∧
      s'.pid.integral ≤ 2000000 :=
  ⟨⟨by decide, by decide, by decide, by decide⟩,
    speedControlStep_integral_upper_bound 1000 Dir.CW 1 negErrState
      (by decide) (by decide) (by decide) (by decide)⟩

/-- Counterexample to C2 as stated: a control computation starting from
`PIDs.err = -5`, `PIDs.integral = 0` completes and leaves the integral
accumulator at -5, which is below 0, so the accumulator is not confined
to [0, 2000000]. -/
theorem speedControlStep_integral_negative :
    (speedControlStep 1000 Dir.CW 1 negErrState).map (fun s => s.pid.integral)
      = some (-5) ∧ ¬ (0 : ℚ) ≤ -5 := by
  constructor
  · simp only [speedControlStep, negErrState, benchState, ratToUInt16]
    norm_num
  · norm_num

/-- C3 (amended): in the output computation only the Kd term is dead code
— the statement terminator sits immediately after the Ki term, so the
value assigned to `PIDs.output` before clamping is
`Kp * err + Ki * integral * 0.001`, and the result is independent of
`PIDs.Kd` and `PIDs.der`. -/
theorem speedControlStep_kd_term_dead (speed : ℕ) (direction : Dir)
    (update : ℕ) (s : MState) (hu : update ≠ 0) (hc : s.changeState ≠ 0)
    (hhc : s.hallCount ≠ 0) (hdv : s.timer / s.hallCount ≠ 0) :
    ∃ s', speedControlStep speed direction update s = some s' ∧
      s'.pid.output =
        (let integral : ℚ :=
          if s.pid.integral + s.pid.err > 2000000 then 2000000
          else s.pid.integral + s.pid.err
        let pre := s.pid.Kp * s.pid.err + s.pid.Ki * integral * (1 / 1000)
        if pre > 30000 then 30000 else if pre < 0 then 0 else pre) ∧
      ∀ k d : ℚ,
        (speedControlStep speed direction update
            { s with pid := { s.pid with Kd := k, der := d } }).map
          (fun t => t.pid.output) = some s'.pid.output := by
  unfold speedControlStep
  rw [if_pos hu, if_pos hc, if_neg hhc, if_neg hdv]
  refine ⟨_, rfl, rfl, ?_⟩
  intro k d
  simp only [if_pos hu, if_pos hc, if_neg hhc, if_neg hdv, Option.map_some]
  rfl

/-- Concrete instantiation of the C3 (amended) theorem. -/
theorem speedControlStep_kd_term_dead_witness :
    ((1 : ℕ) ≠ 0 ∧ kiState.changeState ≠ 0 ∧ kiState.hallCount ≠ 0 ∧
      kiState.timer / kiState.hallCount ≠ 0) ∧
    ∃ s', speedControlStep 1000 Dir.CW 1 kiState = some s' ∧
      s'.pid.output =
        (let integral : ℚ :=
          if kiState.pid.integral + kiState.pid.err > 2000000 then 2000000
          else kiState.pid.integral + kiState.pid.err
        let pre := kiState.pid.Kp * kiState.pid.err +
          kiState.pid.Ki * integral * (1 / 1000)
        if pre > 30000 then 30000 else if pre < 0 then 0 else pre) ∧
      ∀ k d : ℚ,
        (speedControlStep 1000 Dir.CW 1
            { kiState with pid := { kiState.pid with Kd := k, der := d } }).map
          (fun t => t.pid.output) = some s'.pid.output :=
  ⟨⟨by decide, by decide, by decide, by decide⟩,
    speedControlStep_kd_term_dead 1000 Dir.CW 1 kiState
      (by decide) (by decide) (by decide) (by decide)⟩

/-- Counterexample to C3 as stated: with `Kp = Ki = 1`, `err = 0`,
`integral = 2000`, the computed output is 2 (the live Ki term), while the
proportional term `Kp * err` alone is 0 — so the output does not equal
only the proportional term. -/
theorem speedControlStep_ki_term_live :
    (speedControlStep 1000 Dir.CW 1 kiState).map (fun s => s.pid.output)
      = some 2 ∧ kiState.pid.Kp * kiState.pid.err = 0 ∧ (2 : ℚ) ≠ 0 := by
  refine ⟨?_, ?_, by norm_num⟩
  · simp only [speedControlStep, kiState, benchState, ratToUInt16]
    norm_num
  · show (1 : ℚ) * 0 = 0
    norm_num

/-- C4: the code divides `timer` by `hallCount` without a guard.  With a
pending update and `hallCount = 0` the step performs a division by zero
(C undefined behaviour), modelled as `none`: the source violates the
requirement that the step not crash on a stalled motor. -/
theorem speedControlStep_stall_divide_by_zero :
    speedControlStep 1000 Dir.CW 1 stallState = none := by
  simp [speedControlStep, stallState, benchState]

/-- C7: when a control computation completes, the speed estimate stored
in `motorInfo.currentSpeed` equals `52500000 / (timer / hallCount)` with
integer division. -/
theorem speedControlStep_speed_estimate (speed : ℕ) (direction : Dir)
    (update : ℕ) (s : MState) (hu : update ≠ 0) (hc : s.changeState ≠ 0)
    (hhc : s.hallCount ≠ 0) (hdv : s.timer / s.hallCount ≠ 0) :
    ∃ s', speedControlStep speed direction update s = some s' ∧
      s'.currentSpeed = 52500000 / (s.timer / s.hallCount) := by
  unfold speedControlStep
  rw [if_pos hu, if_pos hc, if_neg hhc, if_neg hdv]
  exact ⟨_, rfl, rfl⟩

/-- Concrete instantiation of the C7 theorem: with `timer = 52500` and
`hallCount = 1` the speed estimate is exactly 1000. -/
theorem speedControlStep_speed_estimate_witness :
    ((1 : ℕ) ≠ 0 ∧ kiState.changeState ≠ 0 ∧ kiState.hallCount ≠ 0 ∧
      kiState.timer / kiState.hallCount ≠ 0) ∧
    (∃ s', speedControlStep 1000 Dir.CW 1 kiState = some s' ∧
      s'.currentSpeed = 52500000 / (kiState.timer / kiState.hallCount)) ∧
    52500000 / (kiState.timer / kiState.hallCount) = 1000 :=
  ⟨⟨by decide, by decide, by decide, by decide⟩,
    speedControlStep_speed_estimate 1000 Dir.CW 1 kiState
      (by decide) (by decide) (by decide) (by decide),
    by decide⟩
